import Mathlib

/-!
# Wallet SDK data contracts (structs/wallet_sdk.go)

The source file holds declarations only: struct types with their struct tags,
untyped and typed constants, and the interface `IWalletClient`.  The embedding
has two layers.

* A *declaration layer*: every struct is a list of `Field` descriptors (field
  name, Go type, the `json` and `protobuf` values of its struct tag, in
  declaration order) and the interface is a list of `Method` descriptors
  (method name, parameter types, result types, in declaration order).
* A *value layer*: Lean structures mirroring the Go structs whose values the
  properties talk about (`Fee`, `WalletInfo`, `POEBody`, `POEPayload`, `UTXO`,
  `SpentTxOUT`).  Types declared elsewhere in the package (`Identifier`,
  `DidType`, `DidEndpoint`, `DidStatus`) are type parameters.  The pointers of
  `WalletInfo.HDS` are addresses into a `WalletStore`, so that shared and
  self-referential wallets are values of the model as they are values in Go.
-/

namespace WalletSdk

/-! ## Declaration layer -/

/-- Go type expressions as they are written in the source file. A predeclared
or declared type is `named` by its identifier (`int64`, `string`, `Identifier`,
`http.Header`), `ptr t` is `*t`, `slice t` is `[]t`, `map k v` is `map[k]v` and
`emptyInterface` is `interface{}`. -/
inductive GoType where
  | named (n : String)
  | ptr (t : GoType)
  | slice (t : GoType)
  | map (k v : GoType)
  | emptyInterface
  deriving DecidableEq, Repr

/-- One struct field: its name, its type, and the values its struct tag gives
for the keys `json` and `protobuf` (`none` when the tag has no such key). -/
structure Field where
  name : String
  type : GoType
  json : String
  protobuf : Option String := none
  deriving DecidableEq, Repr

/-- The JSON object key of a field, as `encoding/json` reads it from the tag:
the part of the `json` tag value before the first comma (what follows are
options such as `omitempty`), and the field name when that part is empty. -/
def Field.jsonKey (f : Field) : String :=
  let n := f.json.data.takeWhile (fun c => c != ',')
  if n.isEmpty then f.name else String.mk n

/-- One interface method: its name, parameter types and result types. -/
structure Method where
  name : String
  params : List GoType
  results : List GoType
  deriving DecidableEq, Repr

/-- The Go type `http.Header`. -/
def httpHeader : GoType := .named "http.Header"

/-- The predeclared Go type `error`. -/
def goError : GoType := .named "error"

/-- Fields of `type WalletResponse struct`. -/
def WalletResponse_fields : List Field :=
  [ { name := "Code", type := .named "int", json := "code" },
    { name := "Message", type := .named "string", json := "message" },
    { name := "Id", type := .named "Identifier", json := "id" },
    { name := "Endpoint", type := .named "string", json := "endpoint" },
    { name := "KeyPair", type := .ptr (.named "KeyPair"), json := "key_pair" },
    { name := "Created", type := .named "int64", json := "created" },
    { name := "TokenId", type := .named "string", json := "token_id" },
    { name := "TransactionIds", type := .slice (.named "string"), json := "transaction_ids" } ]

/-- Fields of `type WalletInfo struct`. -/
def WalletInfo_fields : List Field :=
  [ { name := "Id", type := .named "Identifier", json := "id" },
    { name := "Type", type := .named "DidType", json := "type" },
    { name := "Endpoint", type := .named "DidEndpoint", json := "endpoint" },
    { name := "Status", type := .named "DidStatus", json := "status" },
    { name := "Created", type := .named "int64", json := "created" },
    { name := "Updated", type := .named "int64", json := "updated" },
    { name := "HDS", type := .map (.named "Identifier") (.ptr (.named "WalletInfo")), json := "hds" } ]

/-- Fields of `type POEBody struct`. -/
def POEBody_fields : List Field :=
  [ { name := "Id", type := .named "Identifier", json := "id" },
    { name := "Name", type := .named "string", json := "name" },
    { name := "ParentId", type := .named "Identifier", json := "parent_id" },
    { name := "Owner", type := .named "Identifier", json := "owner" },
    { name := "ExpireTime", type := .named "int64", json := "expire_time" },
    { name := "Hash", type := .named "string", json := "hash" },
    { name := "Metadata", type := .slice (.named "byte"), json := "metadata" } ]

/-- Fields of `type POEPayload struct`. -/
def POEPayload_fields : List Field :=
  [ { name := "Id", type := .named "Identifier", json := "id" },
    { name := "Name", type := .named "string", json := "name" },
    { name := "ParentId", type := .named "Identifier", json := "parent_id" },
    { name := "Owner", type := .named "Identifier", json := "owner" },
    { name := "ExpireTime", type := .named "int64", json := "expire_time" },
    { name := "Hash", type := .named "string", json := "hash" },
    { name := "Metadata", type := .slice (.named "byte"), json := "metadata" },
    { name := "Created", type := .named "int64", json := "created" },
    { name := "Updated", type := .named "int64", json := "updated" },
    { name := "Status", type := .named "DidStatus", json := "status" } ]

/-- Fields of `type UTXO struct`, with both tag values of every field. -/
def UTXO_fields : List Field :=
  [ { name := "SourceTxDataHash", type := .named "string",
      protobuf := some "bytes,1,opt,name=sourceTxDataHash", json := "sourceTxDataHash,omitempty" },
    { name := "Ix", type := .named "uint32",
      protobuf := some "varint,2,opt,name=ix", json := "ix,omitempty" },
    { name := "CTokenId", type := .named "string",
      protobuf := some "bytes,3,opt,name=cTokenId", json := "cTokenId,omitempty" },
    { name := "CType", type := .named "int32",
      protobuf := some "varint,4,opt,name=cType", json := "cType,omitempty" },
    { name := "Value", type := .named "int64",
      protobuf := some "varint,4,opt,name=value", json := "value,omitempty" },
    { name := "Addr", type := .named "string",
      protobuf := some "bytes,5,opt,name=addr", json := "addr,omitempty" },
    { name := "Until", type := .named "int64",
      protobuf := some "varint,6,opt,name=until", json := "until,omitempty" },
    { name := "Script", type := .slice (.named "byte"),
      protobuf := some "bytes,7,opt,name=script,proto3", json := "script,omitempty" },
    { name := "CreatedAt", type := .ptr (.named "Timestamp"),
      protobuf := some "bytes,8,opt,name=createdAt", json := "createdAt,omitempty" },
    { name := "Founder", type := .named "string",
      protobuf := some "bytes,9,opt,name=founder", json := "founder,omitempty" },
    { name := "TxType", type := .named "int32",
      protobuf := some "varint,10,opt,name=txType", json := "txType,omitempty" },
    { name := "BCTxID", type := .named "string",
      protobuf := some "bytes,11,opt,name=bcTxID", json := "bcTxID,omitempty" } ]

/-- Fields of `type SpentTxOUT struct`, with both tag values of every field. -/
def SpentTxOUT_fields : List Field :=
  [ { name := "SourceTxDataHash", type := .named "string",
      protobuf := some "bytes,1,opt,name=sourceTxDataHash", json := "sourceTxDataHash,omitempty" },
    { name := "Ix", type := .named "uint32",
      protobuf := some "varint,2,opt,name=ix", json := "ix,omitempty" },
    { name := "CTokenId", type := .named "string",
      protobuf := some "bytes,3,opt,name=cTokenId", json := "cTokenId,omitempty" },
    { name := "CType", type := .named "int32",
      protobuf := some "varint,4,opt,name=cType", json := "cType,omitempty" },
    { name := "Value", type := .named "int64",
      protobuf := some "varint,4,opt,name=value", json := "value,omitempty" },
    { name := "Addr", type := .named "string",
      protobuf := some "bytes,5,opt,name=addr", json := "addr,omitempty" },
    { name := "Until", type := .named "int64",
      protobuf := some "varint,6,opt,name=until", json := "until,omitempty" },
    { name := "Script", type := .slice (.named "byte"),
      protobuf := some "bytes,7,opt,name=script,proto3", json := "script,omitempty" },
    { name := "CreatedAt", type := .ptr (.named "Timestamp"),
      protobuf := some "bytes,8,opt,name=createdAt", json := "createdAt,omitempty" },
    { name := "SpentTxDataHash", type := .named "string",
      protobuf := some "bytes,9,opt,name=spentTxDataHash", json := "spentTxDataHash,omitempty" },
    { name := "SpentAt", type := .ptr (.named "Timestamp"),
      protobuf := some "bytes,10,opt,name=spentAt", json := "spentAt,omitempty" },
    { name := "Founder", type := .named "string",
      protobuf := some "bytes,11,opt,name=founder", json := "founder,omitempty" },
    { name := "TxType", type := .named "int32",
      protobuf := some "varint,12,opt,name=txType", json := "txType,omitempty" },
    { name := "BCTxID", type := .named "string",
      protobuf := some "bytes,13,opt,name=bcTxID", json := "bcTxID,omitempty" } ]

/-- Fields of `type Fee struct`. -/
def Fee_fields : List Field :=
  [ { name := "Amount", type := .named "AXTUnit", json := "amount" } ]

/-- The defined (non-struct) types of the file with their underlying type:
`type TransactionLogs map[string]*TransactionLog` and `type AXTUnit int64`. -/
def typeDecls : List (String × GoType) :=
  [ ("TransactionLogs", .map (.named "string") (.ptr (.named "TransactionLog"))),
    ("AXTUnit", .named "int64") ]

/-- The underlying type of a defined type of the file, if it declares one. -/
def underlying (n : String) : Option GoType :=
  (typeDecls.find? (fun d => d.1 == n)).map (fun d => d.2)

/-- The method set of `type IWalletClient interface`, in declaration order. -/
def IWalletClient : List Method :=
  [ { name := "Register",
      params := [httpHeader, .ptr (.named "RegisterWalletBody")],
      results := [.ptr (.named "WalletResponse"), goError] },
    { name := "RegisterSubWallet",
      params := [httpHeader, .ptr (.named "RegisterSubWalletBody")],
      results := [.ptr (.named "WalletResponse"), goError] },
    { name := "GetWalletBalance",
      params := [httpHeader, .named "Identifier"],
      results := [.ptr (.named "WalletBalance"), goError] },
    { name := "GetWalletInfo",
      params := [httpHeader, .named "Identifier"],
      results := [.ptr (.named "WalletInfo"), goError] },
    { name := "CreatePOE",
      params := [httpHeader, .ptr (.named "POEBody"), .ptr (.named "SignatureBody")],
      results := [.ptr (.named "WalletResponse"), goError] },
    { name := "CreatePOESign",
      params := [httpHeader, .ptr (.named "POEBody"), .ptr (.named "SignatureParam")],
      results := [.ptr (.named "WalletResponse"), goError] },
    { name := "UpdatePOE",
      params := [httpHeader, .ptr (.named "POEBody"), .ptr (.named "SignatureBody")],
      results := [.ptr (.named "WalletResponse"), goError] },
    { name := "UpdatePOESign",
      params := [httpHeader, .ptr (.named "POEBody"), .ptr (.named "SignatureParam")],
      results := [.ptr (.named "WalletResponse"), goError] },
    { name := "QueryPOE",
      params := [httpHeader, .named "Identifier"],
      results := [.ptr (.named "POEPayload"), goError] },
    { name := "UploadPOEFile",
      params := [httpHeader, .named "string", .named "string"],
      results := [.ptr (.named "WalletResponse"), goError] },
    { name := "IssueCToken",
      params := [httpHeader, .ptr (.named "IssueBody"), .ptr (.named "SignatureBody")],
      results := [.ptr (.named "WalletResponse"), goError] },
    { name := "IssueCTokenSign",
      params := [httpHeader, .ptr (.named "IssueBody"), .ptr (.named "SignatureParam")],
      results := [.ptr (.named "WalletResponse"), goError] },
    { name := "IssueAsset",
      params := [httpHeader, .ptr (.named "IssueAssetBody"), .ptr (.named "SignatureBody")],
      results := [.ptr (.named "WalletResponse"), goError] },
    { name := "IssueAssetSign",
      params := [httpHeader, .ptr (.named "IssueAssetBody"), .ptr (.named "SignatureParam")],
      results := [.ptr (.named "WalletResponse"), goError] },
    { name := "TransferCToken",
      params := [httpHeader, .ptr (.named "TransferCTokenBody"), .ptr (.named "SignatureBody")],
      results := [.ptr (.named "WalletResponse"), goError] },
    { name := "TransferCTokenSign",
      params := [httpHeader, .ptr (.named "TransferCTokenBody"), .ptr (.named "SignatureParam")],
      results := [.ptr (.named "WalletResponse"), goError] },
    { name := "TransferAsset",
      params := [httpHeader, .ptr (.named "TransferAssetBody"), .ptr (.named "SignatureBody")],
      results := [.ptr (.named "WalletResponse"), goError] },
    { name := "TransferAssetSign",
      params := [httpHeader, .ptr (.named "TransferAssetBody"), .ptr (.named "SignatureParam")],
      results := [.ptr (.named "WalletResponse"), goError] },
    { name := "QueryTransactionLogs",
      params := [httpHeader, .named "Identifier", .named "string"],
      results := [.named "TransactionLogs", goError] } ]

/-- The method of the interface with the given name, if it declares one. -/
def lookupMethod (n : String) : Option Method :=
  IWalletClient.find? (fun m => m.name == n)

/-! ## Constants -/

/-- Form-data parameter carrying the POE id in the upload-file call. -/
def OffchainPOEID : String := "poe_id"

/-- Form-data parameter carrying the binary file in the upload-file call. -/
def OffchainPOEFile : String := "poe_file"

/-- Form-data parameter: issuer did. -/
def SignatureCreator : String := "signature.creator"

/-- Form-data parameter: timestamp. -/
def SignatureCreated : String := "signature.created"

/-- Form-data parameter: nonce. -/
def SignatureNonce : String := "signature.nonce"

/-- Form-data parameter: sign value. -/
def SignatureSignatureValue : String := "signature.signatureValue"

/-- Go's `strings.HasPrefix s p`: `s` begins with `p`. -/
def HasPrefix (s p : String) : Bool :=
  p.data.isPrefixOf s.data

/-- The Go type `type AXTUnit int64`, as an integer; the bounds of `int64`
are `minInt64` and `maxInt64`. -/
abbrev AXTUnit := Int

/-- Smallest `int64`. -/
def minInt64 : Int := -(2 ^ 63)

/-- Largest `int64`. -/
def maxInt64 : Int := 2 ^ 63 - 1

/-- Constant `ATOM AXTUnit = 1`. -/
def ATOM : AXTUnit := 1

/-- Constant `MicroAXT = 1000 * ATOM`. -/
def MicroAXT : AXTUnit := 1000 * ATOM

/-- Constant `AXT = 1000 * MicroAXT`. -/
def AXT : AXTUnit := 1000 * MicroAXT

/-! ## Value layer -/

/-- Transaction fee structure: `type Fee struct { Amount AXTUnit }`. -/
structure Fee where
  Amount : AXTUnit
  deriving DecidableEq, Repr

/-- Timestamp structure: `Seconds int64`, `Nanos int32`. -/
structure Timestamp where
  Seconds : Int
  Nanos : Int
  deriving DecidableEq, Repr

/-- Values of `type WalletInfo struct`.  The map `HDS map[Identifier]*WalletInfo`
is the list of its entries.  Its values are pointers: an entry holds `none`
for the nil pointer and `some a` for a pointer to the wallet record at address
`a` of a `WalletStore`.  The source field `Type` is written `Type_`. -/
structure WalletInfo (Identifier DidType DidEndpoint DidStatus : Type) where
  Id : Identifier
  Type_ : DidType
  Endpoint : DidEndpoint
  Status : DidStatus
  Created : Int
  Updated : Int
  HDS : List (Identifier × Option Nat)
  deriving DecidableEq

/-- The wallet records that pointers of type `*WalletInfo` refer to: address
`a` holds the record at position `a`.  Records refer to one another by
address, so a store can hold wallets that share a sub-wallet and wallets that
reach themselves through `HDS`, as Go pointers can. -/
abbrev WalletStore (Identifier DidType DidEndpoint DidStatus : Type) :=
  List (WalletInfo Identifier DidType DidEndpoint DidStatus)

namespace WalletStore

variable {Identifier DidType DidEndpoint DidStatus : Type}

/-- Following a pointer of type `*WalletInfo`: the record it points to, and
nothing for the nil pointer. -/
def deref (h : WalletStore Identifier DidType DidEndpoint DidStatus) (p : Option Nat) :
    Option (WalletInfo Identifier DidType DidEndpoint DidStatus) :=
  p.bind (fun a => h.get? a)

/-- A pointer is nil or the address of a record of the store. -/
def validPtr (h : WalletStore Identifier DidType DidEndpoint DidStatus) : Option Nat → Bool
  | none => true
  | some a => decide (a < h.length)

/-- The store is one a Go program can build: in every record the keys of the
map `HDS` are distinct and no pointer dangles. -/
def WellFormed (h : WalletStore Identifier DidType DidEndpoint DidStatus) : Prop :=
  ∀ w ∈ h, (w.HDS.map (fun e => e.1)).Nodup ∧ ∀ e ∈ w.HDS, validPtr h e.2 = true

/-- The sub-wallets stored in `w.HDS`: the records its non-nil entries point to. -/
def subWallets (h : WalletStore Identifier DidType DidEndpoint DidStatus)
    (w : WalletInfo Identifier DidType DidEndpoint DidStatus) :
    List (WalletInfo Identifier DidType DidEndpoint DidStatus) :=
  w.HDS.filterMap (fun e => deref h e.2)

/-- The wallet has nesting of depth at least `n`: below it there is a chain of
`n` wallets, each a sub-wallet of the one before. -/
def nests (h : WalletStore Identifier DidType DidEndpoint DidStatus) :
    Nat → WalletInfo Identifier DidType DidEndpoint DidStatus → Bool
  | 0, _ => true
  | n + 1, w => (subWallets h w).any (nests h n)

/-- The `k`-th wallet of a chain: the wallet at address 0 stores no sub-wallet
and the wallet at address `k + 1` stores the wallet at address `k` as its only
sub-wallet; all are built from the same field values. -/
def chainWallet (i : Identifier) (t : DidType) (e : DidEndpoint) (st : DidStatus) :
    Nat → WalletInfo Identifier DidType DidEndpoint DidStatus
  | 0 => { Id := i, Type_ := t, Endpoint := e, Status := st, Created := 0, Updated := 0,
           HDS := [] }
  | k + 1 => { Id := i, Type_ := t, Endpoint := e, Status := st, Created := 0, Updated := 0,
               HDS := [(i, some k)] }

/-- The store holding the chain wallets at the addresses 0 to `n`. -/
def chainStore (i : Identifier) (t : DidType) (e : DidEndpoint) (st : DidStatus) (n : Nat) :
    WalletStore Identifier DidType DidEndpoint DidStatus :=
  (List.range (n + 1)).map (chainWallet i t e st)

end WalletStore

/-- A store with the wallet "main" at address 0, whose sub-wallet "cash" at
address 1 itself stores the sub-wallet "petty" at address 2. -/
def nestedStore : WalletStore String String String String :=
  [ { Id := "main", Type_ := "Organization", Endpoint := "", Status := "", Created := 0,
      Updated := 0, HDS := [("cash", some 1)] },
    { Id := "cash", Type_ := "cash", Endpoint := "", Status := "", Created := 0,
      Updated := 0, HDS := [("petty", some 2)] },
    { Id := "petty", Type_ := "cash", Endpoint := "", Status := "", Created := 0,
      Updated := 0, HDS := [] } ]

/-- The wallet "main" of `nestedStore`. -/
def nestedWallet : WalletInfo String String String String :=
  { Id := "main", Type_ := "Organization", Endpoint := "", Status := "", Created := 0,
    Updated := 0, HDS := [("cash", some 1)] }

/-- A store whose only wallet, at address 0, stores itself as sub-wallet. -/
def selfStore : WalletStore String String String String :=
  [ { Id := "w", Type_ := "Organization", Endpoint := "", Status := "", Created := 0,
      Updated := 0, HDS := [("w", some 0)] } ]

/-- Values of `type POEBody struct`; `[]byte` is a list of bytes. -/
structure POEBody (Identifier : Type) where
  Id : Identifier
  Name : String
  ParentId : Identifier
  Owner : Identifier
  ExpireTime : Int
  Hash : String
  Metadata : List (Fin 256)

/-- Values of `type POEPayload struct`. -/
structure POEPayload (Identifier DidStatus : Type) where
  Id : Identifier
  Name : String
  ParentId : Identifier
  Owner : Identifier
  ExpireTime : Int
  Hash : String
  Metadata : List (Fin 256)
  Created : Int
  Updated : Int
  Status : DidStatus

/-- Projection of a payload onto the fields it shares with `POEBody`: every
field of the body is read from the payload field of the same name. -/
def POEPayload.toPOEBody {Identifier DidStatus : Type} (p : POEPayload Identifier DidStatus) :
    POEBody Identifier :=
  { Id := p.Id, Name := p.Name, ParentId := p.ParentId, Owner := p.Owner,
    ExpireTime := p.ExpireTime, Hash := p.Hash, Metadata := p.Metadata }

/-- The payload that holds the fields of a body under the same names, together
with values for the three fields the body does not have. -/
def POEPayload.ofPOEBody {Identifier DidStatus : Type} (b : POEBody Identifier)
    (created updated : Int) (status : DidStatus) : POEPayload Identifier DidStatus :=
  { Id := b.Id, Name := b.Name, ParentId := b.ParentId, Owner := b.Owner,
    ExpireTime := b.ExpireTime, Hash := b.Hash, Metadata := b.Metadata,
    Created := created, Updated := updated, Status := status }

/-- Values of `type UTXO struct`; `*Timestamp` is an optional timestamp. -/
structure UTXO where
  SourceTxDataHash : String
  Ix : Nat
  CTokenId : String
  CType : Int
  Value : Int
  Addr : String
  Until : Int
  Script : List (Fin 256)
  CreatedAt : Option Timestamp
  Founder : String
  TxType : Int
  BCTxID : String
  deriving DecidableEq

/-- Values of `type SpentTxOUT struct`. -/
structure SpentTxOUT where
  SourceTxDataHash : String
  Ix : Nat
  CTokenId : String
  CType : Int
  Value : Int
  Addr : String
  Until : Int
  Script : List (Fin 256)
  CreatedAt : Option Timestamp
  SpentTxDataHash : String
  SpentAt : Option Timestamp
  Founder : String
  TxType : Int
  BCTxID : String
  deriving DecidableEq

/-- The spent output that holds the fields of an unspent output under the same
names, together with the spending transaction hash and the spend time. -/
def UTXO.spend (u : UTXO) (spentTxDataHash : String) (spentAt : Option Timestamp) : SpentTxOUT :=
  { SourceTxDataHash := u.SourceTxDataHash, Ix := u.Ix, CTokenId := u.CTokenId,
    CType := u.CType, Value := u.Value, Addr := u.Addr, Until := u.Until,
    Script := u.Script, CreatedAt := u.CreatedAt,
    SpentTxDataHash := spentTxDataHash, SpentAt := spentAt,
    Founder := u.Founder, TxType := u.TxType, BCTxID := u.BCTxID }

/-- Projection of a spent output onto the fields it shares with `UTXO`. -/
def SpentTxOUT.toUTXO (s : SpentTxOUT) : UTXO :=
  { SourceTxDataHash := s.SourceTxDataHash, Ix := s.Ix, CTokenId := s.CTokenId,
    CType := s.CType, Value := s.Value, Addr := s.Addr, Until := s.Until,
    Script := s.Script, CreatedAt := s.CreatedAt,
    Founder := s.Founder, TxType := s.TxType, BCTxID := s.BCTxID }

/-! ## Relations between declarations -/

/-- The type expression names the declared type `n` somewhere inside it. -/
def GoType.mentions : GoType → String → Bool
  | .named m, n => m == n
  | .ptr t, n => t.mentions n
  | .slice t, n => t.mentions n
  | .map k v, n => k.mentions n || v.mentions n
  | .emptyInterface, _ => false

/-- Struct `big` has a field with the name, the type and the JSON key of `f`. -/
def carriesField (big : List Field) (f : Field) : Bool :=
  big.any (fun g => g.name == f.name && g.type == f.type && g.jsonKey == f.jsonKey)

/-- The names of the fields of `big` for which `small` has no field of that name. -/
def extraFields (big small : List Field) : List String :=
  (big.filter (fun g => !(small.any (fun f => f.name == g.name)))).map (fun g => g.name)

/-- The six operations that exist in a caller-signed and an SDK-signed form. -/
def signedOps : List String :=
  ["CreatePOE", "UpdatePOE", "IssueCToken", "IssueAsset", "TransferCToken", "TransferAsset"]

/-- The fifteen operations that change state on the service. -/
def mutatingOps : List String :=
  ["Register", "RegisterSubWallet", "CreatePOE", "CreatePOESign", "UpdatePOE", "UpdatePOESign",
   "UploadPOEFile", "IssueCToken", "IssueCTokenSign", "IssueAsset", "IssueAssetSign",
   "TransferCToken", "TransferCTokenSign", "TransferAsset", "TransferAssetSign"]

/-! ## Transaction logs -/

/-- Values of `type TransactionLog struct`: `Utxo []*UTXO` and
`Stxo []*SpentTxOUT`, a nil pointer being `none`. -/
structure TransactionLog where
  Utxo : List (Option UTXO)
  Stxo : List (Option SpentTxOUT)
  deriving DecidableEq

/-- Values of `type TransactionLogs map[string]*TransactionLog` (the key is
the endpoint), as the list of the entries of the map. -/
abbrev TransactionLogs := List (String × Option TransactionLog)

/-- Values of `http.Header`, a map from header name to its values, as the list
of its entries. -/
abbrev Header := List (String × List String)

/-- Modelled from the spec: the error taxonomy of its section 7 (InvalidInput,
NotFound, InsufficientFunds, Unauthorized, Timeout, Transport/ServiceError).
The source file declares no error type; its methods return the predeclared
`error`. -/
inductive ClientError where
  | InvalidInput
  | NotFound
  | InsufficientFunds
  | Unauthorized
  | Timeout
  | ServiceError
  deriving DecidableEq, Repr

/-- Modelled from the spec: an implementation of the interface method
`QueryTransactionLogs(http.Header, Identifier, string) (TransactionLogs, error)`.
The source file holds only the declaration of the method, with the comment
"txType: in: query income type transaction, out: query spending type
transaction"; no implementation is part of it.  Following the spec, the call
"reads income (in) or spending (out) transaction logs for an identifier; any
other direction value is invalid input": for the directions "in" and "out" the
request goes to the remote service, here the parameter `service`, and every
other direction fails with `InvalidInput` and yields no logs. -/
def QueryTransactionLogs {Identifier : Type}
    (service : Header → Identifier → String → Except ClientError TransactionLogs)
    (header : Header) (id : Identifier) (txType : String) :
    Except ClientError TransactionLogs :=
  if txType = "in" ∨ txType = "out" then service header id txType
  else .error .InvalidInput

/-- A service that answers every query with an empty set of logs. -/
def emptyLogService : Header → String → String → Except ClientError TransactionLogs :=
  fun _ _ _ => .ok []

/-! ## Protobuf field numbers -/

/-- Go's `strings.Split(s, ",")` on the characters of a string: the pieces
between the commas, in order. -/
def splitComma : List Char → List (List Char)
  | [] => [[]]
  | c :: cs =>
    match splitComma cs with
    | [] => if c = ',' then [[], []] else [[c]]
    | piece :: pieces => if c = ',' then [] :: piece :: pieces else (c :: piece) :: pieces

/-- Go's `strconv.Atoi` on an unsigned decimal numeral: the number it writes,
and nothing when the text is empty or has a character that is not a digit. -/
def atoi (cs : List Char) : Option Nat :=
  if cs.isEmpty then none
  else cs.foldl
    (fun acc c => acc.bind (fun n => if c.isDigit then some (10 * n + (c.toNat - 48)) else none))
    (some 0)

/-- The protobuf field number (wire tag) of a field: the `protobuf` tag value
is a comma-separated list whose first item is the wire type and whose second
item is the field number, as in `varint,4,opt,name=cType`. -/
def Field.protoNumber (f : Field) : Option Nat :=
  match f.protobuf with
  | none => none
  | some tag =>
    match splitComma tag.data with
    | _ :: number :: _ => atoi number
    | _ => none

/-- The pairs of fields of a struct that declare the same protobuf field
number, each pair once, the field declared first coming first. -/
def protoClashes : List Field → List (String × String)
  | [] => []
  | f :: rest =>
    (rest.filter (fun g => g.protoNumber == f.protoNumber)).map (fun g => (f.name, g.name)) ++
      protoClashes rest

/-! ## Theorems -/

/-- C1: the fee units are the integer ladder ATOM = 1, MicroAXT = 1000 * ATOM =
1000, AXT = 1000 * MicroAXT = 1000000 ATOM, all three within the range of
int64, the underlying type of AXTUnit; the only field of Fee, Amount, has type
AXTUnit, and every fee amount is a whole number of ATOM. -/
theorem C1_fee_unit_ladder :
    underlying "AXTUnit" = some (.named "int64") ∧
    ATOM = 1 ∧ MicroAXT = 1000 * ATOM ∧ MicroAXT = 1000 ∧
    AXT = 1000 * MicroAXT ∧ AXT = 1000000 * ATOM ∧ AXT = 1000000 ∧
    (minInt64 ≤ ATOM ∧ AXT ≤ maxInt64) ∧
    Fee_fields.map (fun f => (f.name, f.type)) = [("Amount", .named "AXTUnit")] ∧
    ∀ f : Fee, ∃ n : Int, f.Amount = n * ATOM := by
  refine ⟨by decide, by decide, by decide, by decide, by decide, by decide, by decide,
    by decide, by decide, ?_⟩
  intro f
  exact ⟨f.Amount, by simp [ATOM]⟩

/-- C2: WalletResponse has exactly eight fields, named Code, Message, Id,
Endpoint, KeyPair, Created, TokenId, TransactionIds, whose JSON keys are, in
declaration order, code, message, id, endpoint, key_pair, created, token_id,
transaction_ids, and no two fields share a key. -/
theorem C2_wallet_response_json_keys :
    WalletResponse_fields.length = 8 ∧
    WalletResponse_fields.map (fun f => (f.name, f.jsonKey)) =
      [("Code", "code"), ("Message", "message"), ("Id", "id"), ("Endpoint", "endpoint"),
       ("KeyPair", "key_pair"), ("Created", "created"), ("TokenId", "token_id"),
       ("TransactionIds", "transaction_ids")] ∧
    (WalletResponse_fields.map Field.jsonKey).Nodup := by
  refine ⟨by decide, by decide, by decide⟩

/-- C3: for each of the six signed operations X the interface declares X and
XSign with the same header type, the same body type and the same results; the
third parameter is *SignatureBody for X and *SignatureParam for XSign, and no
method of the interface has parameters naming both SignatureBody and
SignatureParam. -/
theorem C3_signed_and_sign_variants :
    (∀ X ∈ signedOps, ∃ body results,
      lookupMethod X =
        some { name := X, params := [httpHeader, body, .ptr (.named "SignatureBody")],
               results := results } ∧
      lookupMethod (X ++ "Sign") =
        some { name := X ++ "Sign", params := [httpHeader, body, .ptr (.named "SignatureParam")],
               results := results }) ∧
    (.ptr (.named "SignatureBody") : GoType) ≠ .ptr (.named "SignatureParam") ∧
    ∀ m ∈ IWalletClient,
      ¬ (m.params.any (fun t => t.mentions "SignatureBody") = true ∧
         m.params.any (fun t => t.mentions "SignatureParam") = true) := by
  refine ⟨?_, by decide, by decide⟩
  intro X hX
  simp only [signedOps, List.mem_cons, List.mem_singleton, List.not_mem_nil, or_false] at hX
  rcases hX with rfl | rfl | rfl | rfl | rfl | rfl
  · exact ⟨.ptr (.named "POEBody"), [.ptr (.named "WalletResponse"), goError], by decide, by decide⟩
  · exact ⟨.ptr (.named "POEBody"), [.ptr (.named "WalletResponse"), goError], by decide, by decide⟩
  · exact ⟨.ptr (.named "IssueBody"), [.ptr (.named "WalletResponse"), goError], by decide, by decide⟩
  · exact ⟨.ptr (.named "IssueAssetBody"), [.ptr (.named "WalletResponse"), goError],
      by decide, by decide⟩
  · exact ⟨.ptr (.named "TransferCTokenBody"), [.ptr (.named "WalletResponse"), goError],
      by decide, by decide⟩
  · exact ⟨.ptr (.named "TransferAssetBody"), [.ptr (.named "WalletResponse"), goError],
      by decide, by decide⟩

/-- C4: every method of the interface has http.Header as first parameter and
returns a pair whose second component is error; each of the fifteen mutating
methods is declared and returns *WalletResponse; the methods whose result is
not *WalletResponse are exactly GetWalletBalance (*WalletBalance),
GetWalletInfo (*WalletInfo), QueryPOE (*POEPayload) and QueryTransactionLogs
(TransactionLogs). -/
theorem C4_header_first_and_result_types :
    (∀ m ∈ IWalletClient, m.params.head? = some httpHeader ∧
      m.results.length = 2 ∧ m.results.get? 1 = some goError) ∧
    (∀ X ∈ mutatingOps, ∃ m, lookupMethod X = some m ∧ m.name = X ∧
      m.results = [.ptr (.named "WalletResponse"), goError]) ∧
    (IWalletClient.filter
        (fun m => m.results.head? != some (.ptr (.named "WalletResponse")))).map
        (fun m => (m.name, m.results.head?)) =
      [("GetWalletBalance", some (.ptr (.named "WalletBalance"))),
       ("GetWalletInfo", some (.ptr (.named "WalletInfo"))),
       ("QueryPOE", some (.ptr (.named "POEPayload"))),
       ("QueryTransactionLogs", some (.named "TransactionLogs"))] ∧
    (IWalletClient.filter
        (fun m => m.results.head? == some (.ptr (.named "WalletResponse")))).map
        (fun m => m.name) = mutatingOps := by
  refine ⟨by decide, ?_, by decide, by decide⟩
  intro X hX
  have h : (mutatingOps.all (fun X => match lookupMethod X with
      | some m => m.name == X && m.results == [.ptr (.named "WalletResponse"), goError]
      | none => false)) = true := by decide
  rw [List.all_eq_true] at h
  have hx := h X hX
  cases hm : lookupMethod X with
  | none => simp [hm] at hx
  | some m =>
    simp only [hm, Bool.and_eq_true, beq_iff_eq] at hx
    exact ⟨m, rfl, hx.1, hx.2⟩

/-! ### Nesting of sub-wallets -/

section Nesting

variable {Identifier DidType DidEndpoint DidStatus : Type}

/-- Every address up to `n` of the chain store holds the chain wallet of that
address. -/
theorem WalletStore.chainStore_get (i : Identifier) (t : DidType) (e : DidEndpoint)
    (st : DidStatus) (n k : Nat) (hk : k ≤ n) :
    (WalletStore.chainStore i t e st n).get? k = some (WalletStore.chainWallet i t e st k) := by
  simp only [WalletStore.chainStore, List.get?_eq_getElem?, List.getElem?_map]
  rw [List.getElem?_range (by omega)]
  rfl

/-- In the chain store the wallet of address `k` has nesting of depth at least
`m` exactly when `m ≤ k`. -/
theorem WalletStore.nests_chainWallet (i : Identifier) (t : DidType) (e : DidEndpoint)
    (st : DidStatus) (n m : Nat) :
    ∀ k, k ≤ n →
      WalletStore.nests (WalletStore.chainStore i t e st n) m
        (WalletStore.chainWallet i t e st k) = decide (m ≤ k) := by
  induction m with
  | zero => intro k _; simp [WalletStore.nests]
  | succ m ih =>
    intro k hk
    cases k with
    | zero => simp [WalletStore.nests, WalletStore.subWallets, WalletStore.chainWallet]
    | succ k =>
      have hget := WalletStore.chainStore_get i t e st n k (by omega)
      have hsub : WalletStore.subWallets (WalletStore.chainStore i t e st n)
          (WalletStore.chainWallet i t e st (k + 1)) = [WalletStore.chainWallet i t e st k] := by
        show List.filterMap (fun e => WalletStore.deref _ e.2) [(i, some k)] = _
        simp only [List.filterMap_cons, List.filterMap_nil, WalletStore.deref, Option.bind, hget]
      simp only [WalletStore.nests, hsub, List.any_cons, List.any_nil, Bool.or_false,
        ih k (by omega)]
      simp

/-- The chain store has distinct map keys and no dangling pointer. -/
theorem WalletStore.chainStore_wellFormed (i : Identifier) (t : DidType) (e : DidEndpoint)
    (st : DidStatus) (n : Nat) : (WalletStore.chainStore i t e st n).WellFormed := by
  intro w hw
  simp only [WalletStore.chainStore, List.mem_map, List.mem_range] at hw
  obtain ⟨k, hk, rfl⟩ := hw
  cases k with
  | zero => simp [WalletStore.chainWallet]
  | succ k =>
    simp [WalletStore.chainWallet, WalletStore.validPtr, WalletStore.chainStore]
    omega

/-- A wallet has nesting of depth at least two exactly when one of its
sub-wallets stores a sub-wallet. -/
theorem WalletStore.nests_two_iff (h : WalletStore Identifier DidType DidEndpoint DidStatus)
    (w : WalletInfo Identifier DidType DidEndpoint DidStatus) :
    WalletStore.nests h 2 w = true ↔
      ∃ s ∈ WalletStore.subWallets h w, WalletStore.subWallets h s ≠ [] := by
  simp only [WalletStore.nests, List.any_eq_true]
  constructor
  · rintro ⟨s, hs, u, hu, -⟩
    exact ⟨s, hs, List.ne_nil_of_mem hu⟩
  · rintro ⟨s, hs, hne⟩
    obtain ⟨u, hu⟩ := List.exists_mem_of_ne_nil _ hne
    exact ⟨s, hs, u, hu, trivial⟩

/-- The wallet of `selfStore` is its own sub-wallet and so has nesting of every
depth: values that reach themselves through `HDS` are values of the model. -/
theorem WalletStore.nests_selfStore (n : Nat) :
    ∀ w ∈ selfStore, w ∈ WalletStore.subWallets selfStore w ∧
      WalletStore.nests selfStore n w = true := by
  intro w hw
  simp only [selfStore, List.mem_singleton] at hw
  subst hw
  refine ⟨by decide, ?_⟩
  induction n with
  | zero => rfl
  | succ n ih =>
    simp only [WalletStore.nests, List.any_eq_true]
    exact ⟨_, by decide, ih⟩

end Nesting

/-- C5 (as stated, refuted): the wallet "main" stores the sub-wallet "cash",
whose own map HDS is not empty and stores the sub-wallet "petty", so "main" is
a WalletInfo value of nesting depth two: not every sub-wallet of every
WalletInfo value has an empty HDS. -/
theorem C5_nested_sub_wallet_counterexample :
    nestedStore.WellFormed ∧ nestedWallet ∈ nestedStore ∧
    WalletStore.nests nestedStore 2 nestedWallet = true ∧
    WalletStore.nests nestedStore 3 nestedWallet = false ∧
    ¬ ∀ s ∈ WalletStore.subWallets nestedStore nestedWallet, s.HDS = [] := by
  refine ⟨?_, by decide, by decide, by decide, by decide⟩
  unfold WalletStore.WellFormed
  decide

/-- C5 (amended): the sub-wallets of a WalletInfo are held in its field HDS,
the only field whose type names WalletInfo, of type map[Identifier]*WalletInfo;
the data type does not bound the nesting: for every n there is a store a Go
program can build and a wallet in it whose nesting depth is exactly n; and the
sub-wallets of a wallet store no sub-wallets of their own exactly when the
wallet has no nesting of depth two. -/
theorem C5_sub_wallet_nesting {Identifier DidType DidEndpoint DidStatus : Type}
    (i : Identifier) (t : DidType) (e : DidEndpoint) (st : DidStatus) :
    WalletInfo_fields.filter (fun f => f.type.mentions "WalletInfo") =
      [{ name := "HDS", type := .map (.named "Identifier") (.ptr (.named "WalletInfo")),
         json := "hds" }] ∧
    (∀ n : Nat, ∃ h : WalletStore Identifier DidType DidEndpoint DidStatus, ∃ w ∈ h,
      h.WellFormed ∧ WalletStore.nests h n w = true ∧ WalletStore.nests h (n + 1) w = false) ∧
    (∀ (h : WalletStore Identifier DidType DidEndpoint DidStatus)
        (w : WalletInfo Identifier DidType DidEndpoint DidStatus),
      (∀ s ∈ WalletStore.subWallets h w, WalletStore.subWallets h s = []) ↔
        WalletStore.nests h 2 w = false) := by
  refine ⟨by decide, ?_, ?_⟩
  · intro n
    refine ⟨WalletStore.chainStore i t e st n, WalletStore.chainWallet i t e st n, ?_,
      WalletStore.chainStore_wellFormed i t e st n, ?_, ?_⟩
    · simp only [WalletStore.chainStore, List.mem_map, List.mem_range]
      exact ⟨n, by omega, rfl⟩
    · simp [WalletStore.nests_chainWallet i t e st n n n le_rfl]
    · simp [WalletStore.nests_chainWallet i t e st n (n + 1) n le_rfl]
  · intro h w
    rw [← Bool.not_eq_true, WalletStore.nests_two_iff]
    push_neg
    rfl

/-- C6: POEPayload has every field of POEBody (Id, Name, ParentId, Owner,
ExpireTime, Hash, Metadata) with the same type and the same JSON key, and
besides them exactly the three fields Created, Updated and Status; the
projection of a payload onto the body fields reads each field unchanged, and a
payload built from a body b projects back to b. -/
theorem C6_poe_payload_extends_body :
    POEBody_fields.map (fun f => f.name) =
      ["Id", "Name", "ParentId", "Owner", "ExpireTime", "Hash", "Metadata"] ∧
    (∀ f ∈ POEBody_fields, carriesField POEPayload_fields f = true) ∧
    extraFields POEPayload_fields POEBody_fields = ["Created", "Updated", "Status"] ∧
    POEPayload_fields.length = POEBody_fields.length + 3 ∧
    (POEPayload_fields.map (fun f => f.name)).Nodup ∧
    (∀ (Identifier DidStatus : Type) (p : POEPayload Identifier DidStatus),
      p.toPOEBody.Id = p.Id ∧ p.toPOEBody.Name = p.Name ∧ p.toPOEBody.ParentId = p.ParentId ∧
      p.toPOEBody.Owner = p.Owner ∧ p.toPOEBody.ExpireTime = p.ExpireTime ∧
      p.toPOEBody.Hash = p.Hash ∧ p.toPOEBody.Metadata = p.Metadata) ∧
    (∀ (Identifier DidStatus : Type) (b : POEBody Identifier) (created updated : Int)
        (status : DidStatus),
      (POEPayload.ofPOEBody b created updated status).toPOEBody = b ∧
      (POEPayload.ofPOEBody b created updated status).Name = b.Name ∧
      (POEPayload.ofPOEBody b created updated status).Owner = b.Owner ∧
      (POEPayload.ofPOEBody b created updated status).Hash = b.Hash ∧
      (POEPayload.ofPOEBody b created updated status).Metadata = b.Metadata) := by
  refine ⟨by decide, by decide, by decide, by decide, by decide, ?_, ?_⟩
  · intro _ _ p
    exact ⟨rfl, rfl, rfl, rfl, rfl, rfl, rfl⟩
  · intro _ _ b created updated status
    exact ⟨rfl, rfl, rfl, rfl, rfl⟩

/-- C7: SpentTxOUT has every one of the twelve UTXO fields with the same type
and the same JSON key, and besides them exactly the two fields SpentTxDataHash
and SpentAt; adding those two values to a UTXO gives a SpentTxOUT that holds
them, and dropping them gives back the UTXO. -/
theorem C7_spent_txout_extends_utxo :
    UTXO_fields.map (fun f => f.name) =
      ["SourceTxDataHash", "Ix", "CTokenId", "CType", "Value", "Addr", "Until", "Script",
       "CreatedAt", "Founder", "TxType", "BCTxID"] ∧
    (∀ f ∈ UTXO_fields, carriesField SpentTxOUT_fields f = true) ∧
    extraFields SpentTxOUT_fields UTXO_fields = ["SpentTxDataHash", "SpentAt"] ∧
    SpentTxOUT_fields.length = UTXO_fields.length + 2 ∧
    (SpentTxOUT_fields.map (fun f => f.name)).Nodup ∧
    (∀ (u : UTXO) (spentTxDataHash : String) (spentAt : Option Timestamp),
      (u.spend spentTxDataHash spentAt).toUTXO = u ∧
      (u.spend spentTxDataHash spentAt).SpentTxDataHash = spentTxDataHash ∧
      (u.spend spentTxDataHash spentAt).SpentAt = spentAt) ∧
    (∀ s : SpentTxOUT, s.toUTXO.spend s.SpentTxDataHash s.SpentAt = s) := by
  refine ⟨by decide, by decide, by decide, by decide, by decide, ?_, ?_⟩
  · intro u h t
    exact ⟨rfl, rfl, rfl⟩
  · intro s
    rfl

/-- C8: the form-field names of the file upload are OffchainPOEID = "poe_id"
and OffchainPOEFile = "poe_file", and the two names differ. -/
theorem C8_upload_form_fields :
    OffchainPOEID = "poe_id" ∧ OffchainPOEFile = "poe_file" ∧
    OffchainPOEID ≠ OffchainPOEFile := by
  decide

/-- C9: the signature form-field constants are "signature.creator",
"signature.created", "signature.nonce" and "signature.signatureValue"; they
are pairwise distinct, each begins with "signature.", and none equals a
file-upload field name. -/
theorem C9_signature_form_fields :
    SignatureCreator = "signature.creator" ∧ SignatureCreated = "signature.created" ∧
    SignatureNonce = "signature.nonce" ∧
    SignatureSignatureValue = "signature.signatureValue" ∧
    [SignatureCreator, SignatureCreated, SignatureNonce, SignatureSignatureValue].Pairwise
      (fun a b => a ≠ b) ∧
    (∀ c ∈ [SignatureCreator, SignatureCreated, SignatureNonce, SignatureSignatureValue],
      HasPrefix c "signature." = true ∧ c ≠ OffchainPOEID ∧ c ≠ OffchainPOEFile) := by
  decide

/-- C10: for every service, header and identifier, a call of
QueryTransactionLogs with a direction other than "in" and "out" fails with
InvalidInput and returns no logs, whereas the directions "in" and "out" are
passed on to the service, whose answer is the result of the call. -/
theorem C10_query_transaction_logs_direction {Identifier : Type}
    (service : Header → Identifier → String → Except ClientError TransactionLogs)
    (header : Header) (id : Identifier) (txType : String)
    (hin : txType ≠ "in") (hout : txType ≠ "out") :
    QueryTransactionLogs service header id txType = .error .InvalidInput ∧
    QueryTransactionLogs service header id "in" = service header id "in" ∧
    QueryTransactionLogs service header id "out" = service header id "out" := by
  refine ⟨?_, ?_, ?_⟩
  · simp [QueryTransactionLogs, hin, hout]
  · simp [QueryTransactionLogs]
  · simp [QueryTransactionLogs]

/-- C10 at the direction "both": it is neither "in" nor "out", and the call fails
with InvalidInput although the service would answer. -/
theorem C10_query_transaction_logs_direction_witness :
    "both" ≠ "in" ∧ "both" ≠ "out" ∧
    QueryTransactionLogs emptyLogService [] "wallet-1" "both" = .error .InvalidInput ∧
    QueryTransactionLogs emptyLogService [] "wallet-1" "in" = .ok [] ∧
    QueryTransactionLogs emptyLogService [] "wallet-1" "out" = .ok [] :=
  ⟨by decide, by decide,
    C10_query_transaction_logs_direction emptyLogService [] "wallet-1" "both"
      (by decide) (by decide)⟩

/-- C11 (evaluated on the declarations): in UTXO and in SpentTxOUT the JSON keys
are pairwise distinct, but the protobuf field numbers are not: both structs
declare the number 4 twice, for CType and for Value, and this is the only pair
of fields of either struct that shares a number. -/
theorem C11_protobuf_field_number_shared :
    UTXO_fields.map Field.protoNumber =
      [some 1, some 2, some 3, some 4, some 4, some 5, some 6, some 7, some 8, some 9,
       some 10, some 11] ∧
    SpentTxOUT_fields.map Field.protoNumber =
      [some 1, some 2, some 3, some 4, some 4, some 5, some 6, some 7, some 8, some 9,
       some 10, some 11, some 12, some 13] ∧
    ¬ (UTXO_fields.map Field.protoNumber).Nodup ∧
    ¬ (SpentTxOUT_fields.map Field.protoNumber).Nodup ∧
    protoClashes UTXO_fields = [("CType", "Value")] ∧
    protoClashes SpentTxOUT_fields = [("CType", "Value")] ∧
    (UTXO_fields.map Field.jsonKey).Nodup ∧
    (SpentTxOUT_fields.map Field.jsonKey).Nodup := by
  refine ⟨by decide, by decide, by decide, by decide, by decide, by decide, by decide,
    by decide⟩

end WalletSdk
